import Mathlib

/-!
Shallow embedding of the LeafDoctor prediction decision pipeline
(`backend/main.py`), covering the plant-image guard (`validate_is_plant`),
the advice generator (`generate_advice`), temperature recalibration,
top-3 ranking and the policy cascade inside the `/predict` endpoint
(`predict`).

Modelling conventions:
* Python floats are modelled exactly: scores are elements of a linear
  ordered field (instantiated at `ℚ` for executable checks) and the
  transcendental recalibration step is modelled over `ℝ`.
* Python string operations `lower()`, `upper()`, `strip()` and the `in`
  containment test are modelled character-wise on `String.data`.
* The two external Gemini calls are modelled as oracle parameters of type
  `Option String`: `some txt` is a successful response with text `txt`,
  `none` is a raised exception (network/parse failure).
* `np.argsort(preds)` uses numpy's default `kind='quicksort'` introsort,
  which is NOT stable: the relative order of indices with equal scores is
  implementation-defined.  The source therefore only guarantees numpy's
  documented contract, captured by `ArgsortValid`: the result is a
  permutation of the index range that sorts the scores ascending.
  Tie-sensitive properties are settled against that contract.  For the
  cascade, whose behaviour depends only on the sorted score values (which
  every admissible tie resolution agrees on), the concrete executable
  `argsort` below picks the stable resolution; `[-3:]` is `drop (n-3)` and
  `[::-1]` is `reverse`.
* Python list indexing `xs[i]` is modelled with `List.getD`; theorems about
  the cascade carry hypotheses (`preds ≠ []`, `preds.length ≤ 38`) under
  which every indexing operation performed by the Python code is in range,
  so the total model agrees with the exception-raising source there.
  `resultsE` additionally models the `IndexError` raised by the catalog
  lookup `CLASS_LABELS[i]` when an index is out of range.
-/

attribute [local semireducible] Rat.inv Rat.add Rat.mul Rat.sub Rat.ofScientific

namespace LeafDoctor

/-- Python `str.strip()` on a character list: drop whitespace from both ends. -/
def stripList (l : List Char) : List Char :=
  ((l.dropWhile Char.isWhitespace).reverse.dropWhile Char.isWhitespace).reverse

/-- Python `str.strip()`. -/
def pyStrip (s : String) : String := ⟨stripList s.data⟩

/-- Python `str.upper()` (character-wise uppercasing). -/
def pyUpper (s : String) : String := ⟨s.data.map Char.toUpper⟩

/-- Python `str.lower()` (character-wise lowercasing). -/
def pyLower (s : String) : String := ⟨s.data.map Char.toLower⟩

/-- Python `needle in hay` substring containment. -/
def pyContains (needle hay : String) : Prop := needle.data <:+: hay.data

instance pyContainsDec (needle hay : String) : Decidable (pyContains needle hay) :=
  List.decidableInfix _ _

/-- The fixed, ordered catalog of disease class names (`CLASS_LABELS`). -/
def CLASS_LABELS : List String := [
  "Apple___Apple_scab", "Apple___Black_rot", "Apple___Cedar_apple_rust", "Apple___healthy",
  "Blueberry___healthy", "Cherry_(including_sour)___Powdery_mildew", "Cherry_(including_sour)___healthy",
  "Corn_(maize)___Cercospora_leaf_spot Gray_leaf_spot", "Corn_(maize)___Common_rust_",
  "Corn_(maize)___Northern_Leaf_Blight", "Corn_(maize)___healthy", "Grape___Black_rot",
  "Grape___Esca_(Black_Measles)", "Grape___Leaf_blight_(Isariopsis_Leaf_Spot)", "Grape___healthy",
  "Orange___Haunglongbing_(Citrus_greening)", "Peach___Bacterial_spot", "Peach___healthy",
  "Pepper,_bell___Bacterial_spot", "Pepper,_bell___healthy", "Potato___Early_blight",
  "Potato___Late_blight", "Potato___healthy", "Raspberry___healthy", "Soybean___healthy",
  "Squash___Powdery_mildew", "Strawberry___Leaf_scorch", "Strawberry___healthy",
  "Tomato___Bacterial_spot", "Tomato___Early_blight", "Tomato___Late_blight",
  "Tomato___Leaf_Mold", "Tomato___Septoria_leaf_spot", "Tomato___Spider_mites Two-spotted_spider_mite",
  "Tomato___Target_Spot", "Tomato___Tomato_Yellow_Leaf_Curl_Virus", "Tomato___Tomato_mosaic_virus",
  "Tomato___healthy"]

/-- `validate_is_plant`: accept when the (stripped, uppercased) response text
contains `"YES"`; on a raised exception (`none`) fail open and accept. -/
def validate_is_plant (resp : Option String) : Bool :=
  match resp with
  | some t => decide (pyContains "YES" (pyUpper (pyStrip t)))
  | none => true

/-- `generate_advice`: healthy labels short-circuit to a fixed message without
consulting the external generator; otherwise the generator response is
stripped, and a raised exception is replaced by the fixed fallback string.
The `Bool` component records whether the external generator was invoked. -/
def generate_advice (gen : String → Option String) (disease_name : String) : String × Bool :=
  if pyContains "healthy" (pyLower disease_name) then ("The plant is healthy!", false)
  else
    match gen disease_name with
    | some t => (pyStrip t, true)
    | none => ("AI advice unavailable.", true)

/-- Key order used by `np.argsort(preds)`: ascending score, ties broken by
keeping the original index order (stable sort). -/
def argsortLe {α : Type} [LinearOrderedField α] (preds : List α) (i j : ℕ) : Prop :=
  preds.getD i 0 < preds.getD j 0 ∨ (preds.getD i 0 = preds.getD j 0 ∧ i ≤ j)

instance argsortLeDec {α : Type} [LinearOrderedField α] (preds : List α) :
    DecidableRel (argsortLe preds) := fun i j => by
  unfold argsortLe
  infer_instance

instance argsortLeTotal {α : Type} [LinearOrderedField α] (preds : List α) :
    IsTotal ℕ (argsortLe preds) := by
  constructor
  intro i j
  rcases lt_trichotomy (preds.getD i 0) (preds.getD j 0) with h | h | h
  · exact Or.inl (Or.inl h)
  · rcases le_total i j with hij | hij
    · exact Or.inl (Or.inr ⟨h, hij⟩)
    · exact Or.inr (Or.inr ⟨h.symm, hij⟩)
  · exact Or.inr (Or.inl h)

instance argsortLeTrans {α : Type} [LinearOrderedField α] (preds : List α) :
    IsTrans ℕ (argsortLe preds) := by
  constructor
  intro i j k hij hjk
  rcases hij with h1 | ⟨e1, l1⟩
  · rcases hjk with h2 | ⟨e2, _⟩
    · exact Or.inl (h1.trans h2)
    · exact Or.inl (e2 ▸ h1)
  · rcases hjk with h2 | ⟨e2, l2⟩
    · exact Or.inl (e1 ▸ h2)
    · exact Or.inr ⟨e1.trans e2, l1.trans l2⟩

/-- `np.argsort(preds)`, as one concrete admissible resolution of its
contract: the indices `0, …, len-1` sorted by ascending score, ties kept in
original index order.  The actual default quicksort is NOT stable, so the
tie order here is a modelling choice; every property proved through this
definition is tie-invariant (it depends only on the sorted score values),
and the tie-sensitive ranking claim is settled against `ArgsortValid`
instead. -/
def argsort {α : Type} [LinearOrderedField α] (preds : List α) : List ℕ :=
  List.insertionSort (argsortLe preds) (List.range preds.length)

/-- numpy's documented contract for `np.argsort(preds)` with the default
`kind='quicksort'`: the result is some permutation of `0, …, len-1` that
sorts the scores ascending.  The default introsort is not stable, so the
relative order of tied indices is implementation-defined: every `idx`
satisfying this contract is an admissible return value, and nothing more is
guaranteed by the source. -/
def ArgsortValid {α : Type} [LinearOrderedField α] (preds : List α) (idx : List ℕ) : Prop :=
  idx.Perm (List.range preds.length) ∧
  List.Pairwise (fun i j => preds.getD i 0 ≤ preds.getD j 0) idx

/-- `idx[-3:][::-1]` applied to an argsort result `idx`. -/
def rankIdx (idx : List ℕ) : List ℕ :=
  (idx.drop (idx.length - 3)).reverse

/-- The ranked `(class_name, confidence_score)` pairs built by `predict`
from an admissible argsort result `idx`. -/
def resultsOf {α : Type} [LinearOrderedField α] (preds : List α) (idx : List ℕ) :
    List (String × α) :=
  (rankIdx idx).map (fun i => (CLASS_LABELS.getD i "", preds.getD i 0))

/-- `np.argsort(preds)[-3:][::-1]`: the (up to) three highest-scoring indices,
highest first. -/
def top_3_idx {α : Type} [LinearOrderedField α] (preds : List α) : List ℕ :=
  ((argsort preds).drop ((argsort preds).length - 3)).reverse

/-- The `results` list built in `predict`: `(class_name, confidence_score)`
pairs for the top-3 indices. -/
def results {α : Type} [LinearOrderedField α] (preds : List α) : List (String × α) :=
  (top_3_idx preds).map (fun i => (CLASS_LABELS.getD i "", preds.getD i 0))

/-- The catalog lookup loop of `predict`, with the `IndexError` raised by
`CLASS_LABELS[i]` on an out-of-range index modelled explicitly.  This is the
only failure mode of the ranking step. -/
def lookupLabels {α : Type} [LinearOrderedField α] (preds : List α) :
    List ℕ → Except String (List (String × α))
  | [] => Except.ok []
  | i :: is =>
    if i < CLASS_LABELS.length then
      match lookupLabels preds is with
      | Except.ok rest => Except.ok ((CLASS_LABELS.getD i "", preds.getD i 0) :: rest)
      | Except.error e => Except.error e
    else Except.error "IndexError: list index out of range"

/-- The ranking step as a fallible computation (spec name: may raise
`ShapeError` when the score vector does not fit the catalog). -/
def resultsE {α : Type} [LinearOrderedField α] (preds : List α) :
    Except String (List (String × α)) :=
  lookupLabels preds (top_3_idx preds)

/-- `results[0]["confidence_score"]` (`top_conf` in the source). -/
def top_conf {α : Type} [LinearOrderedField α] (preds : List α) : α :=
  ((results preds).getD 0 ("", 0)).2

/-- `results[1]["confidence_score"] if len(results) > 1 else 0.0`
(`second_conf` in the source). -/
def second_conf {α : Type} [LinearOrderedField α] (preds : List α) : α :=
  if 1 < (results preds).length then ((results preds).getD 1 ("", 0)).2 else 0

/-- `results[0]["class_name"]` (initial value of `main_disease`). -/
def top_label {α : Type} [LinearOrderedField α] (preds : List α) : String :=
  ((results preds).getD 0 ("", 0)).1

/-- `results[1]["class_name"]`. -/
def second_label {α : Type} [LinearOrderedField α] (preds : List α) : String :=
  ((results preds).getD 1 ("", 0)).1

/-- The spec's decision tags, one per arm of the sanity-check cascade in
`predict`, in the source's branch order. -/
inductive DecisionTag : Type
  | Uncertain : DecisionTag
  | Ambiguous : DecisionTag
  | HighConfidence : DecisionTag
  | Normal : DecisionTag
deriving DecidableEq

/-- The decision artifacts produced by one run of the cascade: the ranked
list, the finalized `main_disease` label, the branch taken, the advice text,
and whether the external advice generator was consulted. -/
structure Diagnosis (α : Type) : Type where
  ranked : List (String × α)
  main_disease : String
  tag : DecisionTag
  advice : String
  genInvoked : Bool

/-- The policy cascade of `predict` (lines 354–377 of the source), from the
recalibrated score vector and the advice-generator oracle. -/
def predictCore {α : Type} [LinearOrderedField α] (gen : String → Option String)
    (preds : List α) : Diagnosis α :=
  if top_conf preds < 35/100 then
    ⟨results preds, "Uncertain Diagnosis", DecisionTag.Uncertain,
      "The AI is not confident in this diagnosis (Confidence < 35%). Please ensure the image is clear, well-lit, and focused on the leaf. Try taking another photo.",
      false⟩
  else if top_conf preds - second_conf preds < 5/100 then
    ⟨results preds, "Ambiguous: " ++ top_label preds ++ " or " ++ second_label preds,
      DecisionTag.Ambiguous,
      "The model is unsure between " ++ top_label preds ++ " and " ++ second_label preds ++ ". Please compare your plant with reference images for both conditions.",
      false⟩
  else if 99/100 < top_conf preds then
    let a := generate_advice gen (top_label preds)
    ⟨results preds, top_label preds, DecisionTag.HighConfidence, a.1, a.2⟩
  else
    let a := generate_advice gen (top_label preds)
    ⟨results preds, top_label preds, DecisionTag.Normal, a.1, a.2⟩

/-- The JSON body returned by a successful `/predict` call: it carries only
the ranked predictions and the advice text. -/
structure PredictResponse (α : Type) : Type where
  top_3_predictions : List (String × α)
  advice : String

/-- The `/predict` endpoint after classification: the guard oracle decides
acceptance (raising the `"Invalid Image: Not a plant."` client error on
rejection), then the cascade runs and its ranked list and advice are
returned. -/
def predictEndpoint {α : Type} [LinearOrderedField α] (guardResp : Option String)
    (gen : String → Option String) (preds : List α) : Except String (PredictResponse α) :=
  if validate_is_plant guardResp = false then
    Except.error "Invalid Image: Not a plant."
  else
    Except.ok ⟨(predictCore gen preds).ranked, (predictCore gen preds).advice⟩

/-- `TEMPERATURE = 2.0`. -/
noncomputable def TEMPERATURE : ℝ := 2

/-- The `1e-7` epsilon guarding `np.log` against `log(0)`. -/
noncomputable def EPS : ℝ := 1 / 10000000

/-- Temperature scaling (lines 341–343 of the source):
`logits = np.log(preds + 1e-7)`, `softened = np.exp(logits / TEMPERATURE)`,
`preds = softened / np.sum(softened)`. -/
noncomputable def recalibrate (T ε : ℝ) (scores : List ℝ) : List ℝ :=
  let logits := scores.map (fun s => Real.log (s + ε))
  let softened := logits.map (fun l => Real.exp (l / T))
  softened.map (fun a => a / softened.sum)

/-! ### Helper lemmas about the ranking and the cascade -/

theorem length_argsort {α : Type} [LinearOrderedField α] (preds : List α) :
    (argsort preds).length = preds.length := by
  unfold argsort
  rw [List.length_insertionSort, List.length_range]

theorem top_3_idx_length {α : Type} [LinearOrderedField α] (preds : List α) :
    (top_3_idx preds).length = min 3 preds.length := by
  unfold top_3_idx
  rw [List.length_reverse, List.length_drop, length_argsort]
  omega

theorem results_length {α : Type} [LinearOrderedField α] (preds : List α) :
    (results preds).length = min 3 preds.length := by
  unfold results
  rw [List.length_map, top_3_idx_length]

theorem predictCore_ranked {α : Type} [LinearOrderedField α]
    (gen : String → Option String) (preds : List α) :
    (predictCore gen preds).ranked = results preds := by
  unfold predictCore
  split_ifs <;> rfl

/-! ### Claim theorems: the policy cascade -/

/-- C1: whenever the recalibrated top-ranked score is strictly below 0.35 the
cascade takes the Uncertain branch regardless of the second score: the label
becomes the sentinel `"Uncertain Diagnosis"`, the advice is the fixed
guidance string asking for a clearer photo, and the external advice generator
is never invoked. -/
theorem uncertain_branch_spec {α : Type} [LinearOrderedField α]
    (gen : String → Option String) (preds : List α)
    (hne : preds ≠ []) (hlen : preds.length ≤ CLASS_LABELS.length)
    (h : top_conf preds < 35/100) :
    (predictCore gen preds).tag = DecisionTag.Uncertain ∧
    (predictCore gen preds).main_disease = "Uncertain Diagnosis" ∧
    (predictCore gen preds).advice = "The AI is not confident in this diagnosis (Confidence < 35%). Please ensure the image is clear, well-lit, and focused on the leaf. Try taking another photo." ∧
    (predictCore gen preds).genInvoked = false := by
  unfold predictCore
  rw [if_pos h]
  exact ⟨rfl, rfl, rfl, rfl⟩

/-- Witness for C1: the spec's own example, a run with top score 0.30. -/
theorem uncertain_branch_spec_witness :
    (predictCore (fun _ => none) [(3:ℚ)/10, 2/10, 1/10]).tag = DecisionTag.Uncertain ∧
    (predictCore (fun _ => none) [(3:ℚ)/10, 2/10, 1/10]).main_disease = "Uncertain Diagnosis" ∧
    (predictCore (fun _ => none) [(3:ℚ)/10, 2/10, 1/10]).advice = "The AI is not confident in this diagnosis (Confidence < 35%). Please ensure the image is clear, well-lit, and focused on the leaf. Try taking another photo." ∧
    (predictCore (fun _ => none) [(3:ℚ)/10, 2/10, 1/10]).genInvoked = false :=
  uncertain_branch_spec (fun _ => none) [(3:ℚ)/10, 2/10, 1/10]
    (by decide) (by decide) (by decide)

/-- C2: whenever the top score is at least 0.35 but the gap to the second
score is strictly below 0.05, the cascade takes the Ambiguous branch: the
label becomes the composite string naming the top two candidates, the advice
is the fixed templated comparison string, and the external advice generator
is never invoked — even when the top score alone exceeds the uncertain
threshold, because the branches are tested in order with first match
winning. -/
theorem ambiguous_branch_spec {α : Type} [LinearOrderedField α]
    (gen : String → Option String) (preds : List α)
    (h2 : 2 ≤ preds.length) (hlen : preds.length ≤ CLASS_LABELS.length)
    (h35 : 35/100 ≤ top_conf preds)
    (hgap : top_conf preds - second_conf preds < 5/100) :
    (predictCore gen preds).tag = DecisionTag.Ambiguous ∧
    (predictCore gen preds).main_disease =
      "Ambiguous: " ++ top_label preds ++ " or " ++ second_label preds ∧
    (predictCore gen preds).advice =
      "The model is unsure between " ++ top_label preds ++ " and " ++ second_label preds ++ ". Please compare your plant with reference images for both conditions." ∧
    (predictCore gen preds).genInvoked = false := by
  unfold predictCore
  rw [if_neg (not_lt.mpr h35), if_pos hgap]
  exact ⟨rfl, rfl, rfl, rfl⟩

/-- Witness for C2: the spec's own example, top score 0.50 and second score
0.47 (gap 0.03), where the top score alone exceeds the uncertain threshold. -/
theorem ambiguous_branch_spec_witness :
    (predictCore (fun _ => none) [(1:ℚ)/2, 47/100, 3/100]).tag = DecisionTag.Ambiguous ∧
    (predictCore (fun _ => none) [(1:ℚ)/2, 47/100, 3/100]).main_disease =
      "Ambiguous: " ++ top_label [(1:ℚ)/2, 47/100, 3/100] ++ " or " ++ second_label [(1:ℚ)/2, 47/100, 3/100] ∧
    (predictCore (fun _ => none) [(1:ℚ)/2, 47/100, 3/100]).advice =
      "The model is unsure between " ++ top_label [(1:ℚ)/2, 47/100, 3/100] ++ " and " ++ second_label [(1:ℚ)/2, 47/100, 3/100] ++ ". Please compare your plant with reference images for both conditions." ∧
    (predictCore (fun _ => none) [(1:ℚ)/2, 47/100, 3/100]).genInvoked = false :=
  ambiguous_branch_spec (fun _ => none) [(1:ℚ)/2, 47/100, 3/100]
    (by decide) (by decide) (by decide) (by decide)

/-- Counterexample to C9 as stated: on a run reaching the third cascade
region (top ≥ 0.35, gap ≥ 0.05) with a "healthy" top label but top score
above 0.99, the source's separate `elif top_conf > 0.99` arm fires, so the
decision is the HighConfidence branch, not the Normal branch. -/
theorem healthy_branch_cex :
    35/100 ≤ top_conf [(0:ℚ), 0, 0, 995/1000] ∧
    5/100 ≤ top_conf [(0:ℚ), 0, 0, 995/1000] - second_conf [(0:ℚ), 0, 0, 995/1000] ∧
    pyContains "healthy" (pyLower (top_label [(0:ℚ), 0, 0, 995/1000])) ∧
    (predictCore (fun _ => none) [(0:ℚ), 0, 0, 995/1000]).tag = DecisionTag.HighConfidence ∧
    (predictCore (fun _ => none) [(0:ℚ), 0, 0, 995/1000]).tag ≠ DecisionTag.Normal := by
  decide

/-- C9 (amended): on the third cascade region (top ≥ 0.35, gap ≥ 0.05) with a
top label containing "healthy" case-insensitively, the advice is the fixed
positive healthy message and the external advice generator is never invoked,
the surfaced label is the top candidate's name, and the decision is Normal
whenever the top score is also at most 0.99 (above 0.99 the logging arm makes
it HighConfidence, with identical label and advice). -/
theorem healthy_branch_spec {α : Type} [LinearOrderedField α]
    (gen : String → Option String) (preds : List α)
    (hne : preds ≠ []) (hlen : preds.length ≤ CLASS_LABELS.length)
    (h35 : 35/100 ≤ top_conf preds)
    (hgap : 5/100 ≤ top_conf preds - second_conf preds)
    (hh : pyContains "healthy" (pyLower (top_label preds))) :
    (predictCore gen preds).advice = "The plant is healthy!" ∧
    (predictCore gen preds).genInvoked = false ∧
    (predictCore gen preds).main_disease = top_label preds ∧
    ((predictCore gen preds).tag = DecisionTag.Normal ∨
      (predictCore gen preds).tag = DecisionTag.HighConfidence) ∧
    (top_conf preds ≤ 99/100 → (predictCore gen preds).tag = DecisionTag.Normal) := by
  have hga : generate_advice gen (top_label preds) = ("The plant is healthy!", false) := by
    unfold generate_advice
    rw [if_pos hh]
  unfold predictCore
  rw [if_neg (not_lt.mpr h35), if_neg (not_lt.mpr hgap)]
  by_cases h99 : 99/100 < top_conf preds
  · rw [if_pos h99]
    exact ⟨by simp [hga], by simp [hga], rfl, Or.inr rfl,
      fun hle => absurd h99 (not_lt.mpr hle)⟩
  · rw [if_neg h99]
    exact ⟨by simp [hga], by simp [hga], rfl, Or.inl rfl, fun _ => rfl⟩

/-- Witness for C9: the spec's own example, top score 0.90, second score
0.05, top label `"Apple___healthy"`. -/
theorem healthy_branch_spec_witness :
    (predictCore (fun _ => none) [(0:ℚ), 5/100, 0, 90/100]).advice = "The plant is healthy!" ∧
    (predictCore (fun _ => none) [(0:ℚ), 5/100, 0, 90/100]).genInvoked = false ∧
    (predictCore (fun _ => none) [(0:ℚ), 5/100, 0, 90/100]).main_disease = top_label [(0:ℚ), 5/100, 0, 90/100] ∧
    ((predictCore (fun _ => none) [(0:ℚ), 5/100, 0, 90/100]).tag = DecisionTag.Normal ∨
      (predictCore (fun _ => none) [(0:ℚ), 5/100, 0, 90/100]).tag = DecisionTag.HighConfidence) ∧
    (top_conf [(0:ℚ), 5/100, 0, 90/100] ≤ 99/100 →
      (predictCore (fun _ => none) [(0:ℚ), 5/100, 0, 90/100]).tag = DecisionTag.Normal) :=
  healthy_branch_spec (fun _ => none) [(0:ℚ), 5/100, 0, 90/100]
    (by decide) (by decide) (by decide) (by decide) (by decide)

/-- Counterexample to C6 as stated: the fallback string substituted by the
source when the advice generator fails is `"AI advice unavailable."`, with a
trailing period, which differs from the claim's string
`"AI advice unavailable"`. -/
theorem advice_fallback_cex :
    35/100 ≤ top_conf [(1:ℚ)/2] ∧
    5/100 ≤ top_conf [(1:ℚ)/2] - second_conf [(1:ℚ)/2] ∧
    top_conf [(1:ℚ)/2] ≤ 99/100 ∧
    ¬ pyContains "healthy" (pyLower (top_label [(1:ℚ)/2])) ∧
    (predictCore (fun _ => none) [(1:ℚ)/2]).tag = DecisionTag.Normal ∧
    (predictCore (fun _ => none) [(1:ℚ)/2]).advice = "AI advice unavailable." ∧
    (predictCore (fun _ => none) [(1:ℚ)/2]).advice ≠ "AI advice unavailable" := by
  decide

/-- C6 (amended): on a run reaching the Normal branch with a non-healthy top
label, if the external advice generator fails the advice becomes exactly the
fixed fallback string `"AI advice unavailable."`, the decision remains
Normal, the ranked predictions are still returned, and the request still
succeeds (the failure is never surfaced as a request failure). -/
theorem advice_fallback_spec {α : Type} [LinearOrderedField α]
    (gen : String → Option String) (guardResp : Option String) (preds : List α)
    (hne : preds ≠ []) (hlen : preds.length ≤ CLASS_LABELS.length)
    (h35 : 35/100 ≤ top_conf preds)
    (hgap : 5/100 ≤ top_conf preds - second_conf preds)
    (h99 : top_conf preds ≤ 99/100)
    (hnh : ¬ pyContains "healthy" (pyLower (top_label preds)))
    (hfail : gen (top_label preds) = none)
    (hacc : validate_is_plant guardResp = true) :
    (predictCore gen preds).advice = "AI advice unavailable." ∧
    (predictCore gen preds).tag = DecisionTag.Normal ∧
    (predictCore gen preds).ranked = results preds ∧
    predictEndpoint guardResp gen preds =
      Except.ok ⟨results preds, "AI advice unavailable."⟩ := by
  have hga : generate_advice gen (top_label preds) = ("AI advice unavailable.", true) := by
    unfold generate_advice
    rw [if_neg hnh, hfail]
  have hcore : (predictCore gen preds).advice = "AI advice unavailable." ∧
      (predictCore gen preds).tag = DecisionTag.Normal ∧
      (predictCore gen preds).ranked = results preds := by
    unfold predictCore
    rw [if_neg (not_lt.mpr h35), if_neg (not_lt.mpr hgap), if_neg (not_lt.mpr h99)]
    exact ⟨by simp [hga], rfl, rfl⟩
  refine ⟨hcore.1, hcore.2.1, hcore.2.2, ?_⟩
  unfold predictEndpoint
  rw [if_neg (by simp [hacc])]
  rw [hcore.2.2, hcore.1]

/-- Witness for C6: a run with a single non-healthy candidate at score 0.50
and a failing advice generator, under a fail-open guard. -/
theorem advice_fallback_spec_witness :
    (predictCore (fun _ => none) [(1:ℚ)/2]).advice = "AI advice unavailable." ∧
    (predictCore (fun _ => none) [(1:ℚ)/2]).tag = DecisionTag.Normal ∧
    (predictCore (fun _ => none) [(1:ℚ)/2]).ranked = results [(1:ℚ)/2] ∧
    predictEndpoint none (fun _ => none) [(1:ℚ)/2] =
      Except.ok ⟨results [(1:ℚ)/2], "AI advice unavailable."⟩ :=
  advice_fallback_spec (fun _ => none) none [(1:ℚ)/2]
    (by decide) (by decide) (by decide) (by decide) (by decide) (by decide)
    (by rfl) (by rfl)

/-- Counterexample to C5 as stated: a successful call returns only the
ranked predictions and the advice text; the decision tag and the finalized
label are not part of the returned result.  On an Uncertain run the
finalized label is the sentinel `"Uncertain Diagnosis"`, yet it appears
neither among the returned class names nor as the returned advice. -/
theorem response_shape_cex :
    predictEndpoint none (fun _ => none) [(1:ℚ)/10] =
      Except.ok ⟨[("Apple___Apple_scab", (1:ℚ)/10)],
        "The AI is not confident in this diagnosis (Confidence < 35%). Please ensure the image is clear, well-lit, and focused on the leaf. Try taking another photo."⟩ ∧
    (predictCore (fun _ => none) [(1:ℚ)/10]).main_disease = "Uncertain Diagnosis" ∧
    "Apple___Apple_scab" ≠ "Uncertain Diagnosis" ∧
    (predictCore (fun _ => none) [(1:ℚ)/10]).advice ≠ "Uncertain Diagnosis" :=
  ⟨by rfl, by decide, by decide, by decide⟩

/-- C5 (amended): every successful call returns a result holding the ranked
(label, score) candidates (at most 3) and the advice text; the decision tag
(drawn from Normal / Uncertain / Ambiguous / HighConfidence) and the
finalized label are computed internally and used for persistence, but are
not included in the returned result. -/
theorem response_shape_spec {α : Type} [LinearOrderedField α]
    (guardResp : Option String) (gen : String → Option String) (preds : List α)
    (hacc : validate_is_plant guardResp = true) :
    predictEndpoint guardResp gen preds =
      Except.ok ⟨(predictCore gen preds).ranked, (predictCore gen preds).advice⟩ ∧
    (predictCore gen preds).ranked = results preds ∧
    (results preds).length = min 3 preds.length ∧
    (results preds).length ≤ 3 ∧
    ((predictCore gen preds).tag = DecisionTag.Normal ∨
     (predictCore gen preds).tag = DecisionTag.Uncertain ∨
     (predictCore gen preds).tag = DecisionTag.Ambiguous ∨
     (predictCore gen preds).tag = DecisionTag.HighConfidence) := by
  refine ⟨?_, predictCore_ranked gen preds, results_length preds, ?_, ?_⟩
  · unfold predictEndpoint
    rw [if_neg (by simp [hacc])]
  · rw [results_length]
    omega
  · cases h : (predictCore gen preds).tag
    · exact Or.inr (Or.inl rfl)
    · exact Or.inr (Or.inr (Or.inl rfl))
    · exact Or.inr (Or.inr (Or.inr rfl))
    · exact Or.inl rfl

/-- Witness for C5: a concrete successful call with a fail-open guard. -/
theorem response_shape_spec_witness :
    predictEndpoint none (fun _ => none) [(1:ℚ)/2] =
      Except.ok ⟨(predictCore (fun _ => none) [(1:ℚ)/2]).ranked,
        (predictCore (fun _ => none) [(1:ℚ)/2]).advice⟩ ∧
    (predictCore (fun _ => none) [(1:ℚ)/2]).ranked = results [(1:ℚ)/2] ∧
    (results [(1:ℚ)/2]).length = min 3 (List.length [(1:ℚ)/2]) ∧
    (results [(1:ℚ)/2]).length ≤ 3 ∧
    ((predictCore (fun _ => none) [(1:ℚ)/2]).tag = DecisionTag.Normal ∨
     (predictCore (fun _ => none) [(1:ℚ)/2]).tag = DecisionTag.Uncertain ∨
     (predictCore (fun _ => none) [(1:ℚ)/2]).tag = DecisionTag.Ambiguous ∨
     (predictCore (fun _ => none) [(1:ℚ)/2]).tag = DecisionTag.HighConfidence) :=
  response_shape_spec none (fun _ => none) [(1:ℚ)/2] (by rfl)

/-! ### Claim theorems: the ranking step -/

theorem mem_top_3_idx_lt {α : Type} [LinearOrderedField α] (preds : List α) {i : ℕ}
    (h : i ∈ top_3_idx preds) : i < preds.length := by
  unfold top_3_idx at h
  rw [List.mem_reverse] at h
  have h2 : i ∈ argsort preds := (List.drop_sublist _ _).mem h
  unfold argsort at h2
  have h3 : i ∈ List.range preds.length := (List.perm_insertionSort _ _).mem_iff.mp h2
  exact List.mem_range.mp h3

theorem lookupLabels_ok {α : Type} [LinearOrderedField α] (preds : List α) (l : List ℕ)
    (h : ∀ i ∈ l, i < CLASS_LABELS.length) :
    lookupLabels preds l =
      Except.ok (l.map (fun i => (CLASS_LABELS.getD i "", preds.getD i 0))) := by
  induction l with
  | nil => rfl
  | cons i is ih =>
    unfold lookupLabels
    rw [if_pos (h i (List.mem_cons_self i is)),
      ih (fun j hj => h j (List.mem_cons_of_mem i hj))]
    rfl

/-- Counterexample to C8 as stated: a score vector of length 1 does not
match the catalog length, yet the ranking step succeeds without any
ShapeError. -/
theorem ranker_total_cex :
    List.length [(1:ℚ)] ≠ CLASS_LABELS.length ∧
    resultsE [(1:ℚ)] = Except.ok [("Apple___Apple_scab", 1)] :=
  ⟨by decide, by rfl⟩

/-- C8 (amended): the ranking step can only fail when a selected top-3 index
lies outside the catalog, which requires a score vector strictly longer than
the catalog; whenever the score vector is no longer than the catalog —
including well-shaped input and the silent strictly-shorter mismatch — the
ranker is a pure total function and returns the ranked pairs without
error. -/
theorem ranker_total_spec {α : Type} [LinearOrderedField α] (preds : List α)
    (hlen : preds.length ≤ CLASS_LABELS.length) :
    resultsE preds = Except.ok (results preds) := by
  unfold resultsE results
  exact lookupLabels_ok preds _
    (fun i hi => lt_of_lt_of_le (mem_top_3_idx_lt preds hi) hlen)

/-- Witness for C8: the length-1 score vector is ranked without error. -/
theorem ranker_total_spec_witness :
    resultsE [(1:ℚ)] = Except.ok (results [(1:ℚ)]) :=
  ranker_total_spec [(1:ℚ)] (by decide)

theorem argsort_sorted {α : Type} [LinearOrderedField α] (preds : List α) :
    List.Sorted (argsortLe preds) (argsort preds) :=
  List.sorted_insertionSort _ _

/-- The concrete `argsort` model is one admissible resolution of numpy's
argsort contract. -/
theorem argsortValid_argsort {α : Type} [LinearOrderedField α] (preds : List α) :
    ArgsortValid preds (argsort preds) := by
  constructor
  · exact List.perm_insertionSort _ _
  · refine (argsort_sorted preds).imp ?_
    rintro i j (h | ⟨h, _⟩)
    · exact le_of_lt h
    · exact le_of_eq h

/-- The cascade's ranking pipeline is the contract-level one instantiated at
the stable resolution. -/
theorem results_eq_resultsOf {α : Type} [LinearOrderedField α] (preds : List α) :
    results preds = resultsOf preds (argsort preds) := rfl

/-- The score vector with a tie between catalog indices 0 and 1: both score
0.5, every other class scores 0. -/
def predsTie : List ℚ := [1/2, 1/2] ++ List.replicate 36 0

/-- An argsort output for `predsTie` admissible under numpy's contract whose
last three entries are 9, 1, 0 — matching the behaviour observed from
numpy's actual (unstable, median-of-3) introsort on this input, where the
surfaced top-3 indices come out as [0, 1, 9]. -/
def numpyIdx : List ℕ :=
  [2, 3, 4, 5, 6, 7, 8, 10, 11, 12, 13, 14, 15, 16, 17, 18, 19, 20, 21, 22,
   23, 24, 25, 26, 27, 28, 29, 30, 31, 32, 33, 34, 35, 36, 37, 9, 1, 0]

/-- Counterexample to C4 as stated: the source delegates to `np.argsort`
with the default unstable quicksort, whose tie order is
implementation-defined, so no deterministic ascending catalog-index
tie-break is guaranteed — and the actual introsort violates it.  On
`predsTie` the zero-scoring indices 2 and 9 are tied; under the claimed
stable ascending tie-break the ranker would have to return top-3 indices
[0, 1, 2], but the admissible (and observed) argsort output `numpyIdx`
makes it return [0, 1, 9], surfacing `"Corn_(maize)___Northern_Leaf_Blight"`
instead of the smaller tied index's `"Apple___Cedar_apple_rust"`. -/
theorem ranker_tiebreak_cex :
    ArgsortValid predsTie numpyIdx ∧
    predsTie.getD 9 0 = predsTie.getD 2 0 ∧
    rankIdx numpyIdx = [0, 1, 9] ∧
    rankIdx numpyIdx ≠ [0, 1, 2] ∧
    resultsOf predsTie numpyIdx =
      [("Apple___Apple_scab", 1/2), ("Apple___Black_rot", 1/2),
        ("Corn_(maize)___Northern_Leaf_Blight", 0)] := by
  exact ⟨⟨by decide, by decide⟩, by decide, by decide, by decide, by decide⟩

/-- C4 (amended): for every well-shaped distribution and every argsort
result admissible under numpy's contract, the ranker returns exactly
min(3, catalog size) = 3 (label, score) pairs, sorted (non-strictly)
descending by score, and every selected score is at least every unselected
score; but the order of classes with equal scores is implementation-defined
(the default `np.argsort` quicksort is not stable), so no deterministic
catalog-index tie-break — ascending or otherwise — is guaranteed by the
code. -/
theorem ranker_sorted_spec {α : Type} [LinearOrderedField α] (preds : List α)
    (idx : List ℕ) (hlen : preds.length = CLASS_LABELS.length)
    (hv : ArgsortValid preds idx) :
    (resultsOf preds idx).length = 3 ∧
    List.Pairwise (fun a b : String × α => b.2 ≤ a.2) (resultsOf preds idx) ∧
    (∀ i ∈ rankIdx idx, ∀ j ∈ idx.take (idx.length - 3),
      preds.getD j 0 ≤ preds.getD i 0) ∧
    resultsOf preds idx =
      (rankIdx idx).map (fun i => (CLASS_LABELS.getD i "", preds.getD i 0)) := by
  have hlen' : idx.length = preds.length :=
    (List.Perm.length_eq hv.1).trans (List.length_range _)
  have h38 : 3 ≤ idx.length := by
    rw [hlen', hlen]
    decide
  have hdrop : List.Pairwise (fun i j : ℕ => preds.getD i 0 ≤ preds.getD j 0)
      (idx.drop (idx.length - 3)) :=
    List.Pairwise.sublist (List.drop_sublist (idx.length - 3) idx) hv.2
  refine ⟨?_, ?_, ?_, rfl⟩
  · unfold resultsOf rankIdx
    rw [List.length_map, List.length_reverse, List.length_drop]
    omega
  · unfold resultsOf rankIdx
    rw [List.pairwise_map]
    refine (List.pairwise_reverse.mpr hdrop).imp ?_
    intro i j h
    exact h
  · intro i hi j hj
    have hsplit := hv.2
    rw [← List.take_append_drop (idx.length - 3) idx, List.pairwise_append] at hsplit
    unfold rankIdx at hi
    rw [List.mem_reverse] at hi
    exact hsplit.2.2 j hj i hi

/-- Witness for C4: the amended theorem applied to the tied distribution and
the observed admissible argsort output. -/
theorem ranker_sorted_spec_witness :
    (resultsOf predsTie numpyIdx).length = 3 ∧
    List.Pairwise (fun a b : String × ℚ => b.2 ≤ a.2) (resultsOf predsTie numpyIdx) ∧
    (∀ i ∈ rankIdx numpyIdx, ∀ j ∈ numpyIdx.take (numpyIdx.length - 3),
      predsTie.getD j 0 ≤ predsTie.getD i 0) ∧
    resultsOf predsTie numpyIdx =
      (rankIdx numpyIdx).map (fun i => (CLASS_LABELS.getD i "", predsTie.getD i 0)) :=
  ranker_sorted_spec predsTie numpyIdx (by decide) ⟨by decide, by decide⟩

/-! ### Claim theorems: the plant-image guard -/

theorem wsChar {c : Char} (h : c.isWhitespace = true) :
    c = ' ' ∨ c = '\t' ∨ c = '\r' ∨ c = '\n' := by
  simp [Char.isWhitespace] at h
  tauto

/-- Dropping a whitespace-style run from the front of a list cannot destroy
an occurrence of a pattern whose first mapped character never arises from a
dropped character. -/
theorem infix_map_dropWhile {β : Type} (p : β → Bool) (f : β → β) (y : β) (ys : List β)
    (l : List β) (hy : ∀ c, p c = true → f c ≠ y)
    (h : (y :: ys) <:+: l.map f) : (y :: ys) <:+: (l.dropWhile p).map f := by
  induction l with
  | nil =>
    rw [List.map_nil, List.infix_nil] at h
    exact absurd h (List.cons_ne_nil y ys)
  | cons c l ih =>
    rw [List.map_cons] at h
    rw [List.dropWhile_cons]
    by_cases hpc : p c = true
    · rw [if_pos hpc]
      rcases List.infix_cons_iff.mp h with hp | hi
      · rw [List.cons_prefix_cons] at hp
        exact absurd hp.1.symm (hy c hpc)
      · exact ih hi
    · rw [if_neg hpc, List.map_cons]
      exact h

theorem stripList_within (l : List Char) : stripList l <:+: l := by
  unfold stripList
  have h1 : List.dropWhile Char.isWhitespace l <:+ l := List.dropWhile_suffix _
  have h2 : List.dropWhile Char.isWhitespace (List.dropWhile Char.isWhitespace l).reverse <:+
      (List.dropWhile Char.isWhitespace l).reverse := List.dropWhile_suffix _
  have h3 : (List.dropWhile Char.isWhitespace
      (List.dropWhile Char.isWhitespace l).reverse).reverse <+:
      List.dropWhile Char.isWhitespace l := by
    rw [← List.reverse_suffix]
    simpa using h2
  exact List.IsInfix.trans ( List.IsPrefix.isInfix h3) ( List.IsSuffix.isInfix h1)

theorem yes_in_stripList (u : List Char)
    (h : "YES".data <:+: u.map Char.toUpper) :
    "YES".data <:+: (stripList u).map Char.toUpper := by
  have hY : ∀ c : Char, c.isWhitespace = true → Char.toUpper c ≠ 'Y' := by
    intro c hc
    rcases wsChar hc with rfl | rfl | rfl | rfl <;> decide
  have hS : ∀ c : Char, c.isWhitespace = true → Char.toUpper c ≠ 'S' := by
    intro c hc
    rcases wsChar hc with rfl | rfl | rfl | rfl <;> decide
  have hdata : "YES".data = 'Y' :: ['E', 'S'] := rfl
  rw [hdata] at h ⊢
  have h1 : 'Y' :: ['E', 'S'] <:+: (u.dropWhile Char.isWhitespace).map Char.toUpper :=
    infix_map_dropWhile _ _ _ _ _ hY h
  unfold stripList
  rw [List.map_reverse]
  rw [show ('Y' :: ['E', 'S'] : List Char) = (['S', 'E', 'Y'] : List Char).reverse from rfl]
  rw [ List.reverse_infix]
  apply infix_map_dropWhile _ _ _ _ _ hS
  rw [List.map_reverse]
  rw [show (['S', 'E', 'Y'] : List Char) = ('Y' :: ['E', 'S'] : List Char).reverse from rfl]
  rw [ List.reverse_infix]
  exact h1

/-- Stripping surrounding whitespace neither creates nor destroys an
occurrence of `"YES"` in the uppercased response text. -/
theorem yes_strip_upper (t : String) :
    pyContains "YES" (pyUpper (pyStrip t)) ↔ pyContains "YES" (pyUpper t) := by
  show "YES".data <:+: (stripList t.data).map Char.toUpper ↔
    "YES".data <:+: t.data.map Char.toUpper
  constructor
  · intro h
    exact List.IsInfix.trans h (List.IsInfix.map Char.toUpper (stripList_within t.data))
  · intro h
    exact yes_in_stripList t.data h

/-- C7: the plant-image guard accepts a successful response if and only if
the response text contains the substring "YES" case-insensitively (the
source strips surrounding whitespace and uppercases before testing, which
does not change the outcome); on a raised transport/parse failure the guard
fails open: it accepts, and the prediction proceeds without a
NotAPlantError, returning the normal successful response. -/
theorem plant_guard_spec {α : Type} [LinearOrderedField α] (t : String)
    (gen : String → Option String) (preds : List α) :
    (validate_is_plant (some t) = true ↔ pyContains "YES" (pyUpper t)) ∧
    validate_is_plant none = true ∧
    predictEndpoint none gen preds =
      Except.ok ⟨(predictCore gen preds).ranked, (predictCore gen preds).advice⟩ := by
  refine ⟨?_, rfl, ?_⟩
  · unfold validate_is_plant
    rw [decide_eq_true_iff]
    exact yes_strip_upper t
  · unfold predictEndpoint
    rw [if_neg (by simp [validate_is_plant])]

/-! ### Claim theorems: temperature recalibration -/

theorem getD_map_of_lt {β γ : Type} (f : β → γ) (l : List β) (i : ℕ)
    (h : i < l.length) (d : γ) (d' : β) :
    (l.map f).getD i d = f (l.getD i d') := by
  rw [List.getD_eq_getElem?_getD, List.getElem?_map, List.getD_eq_getElem?_getD,
    List.getElem?_eq_getElem h]
  rfl

theorem getD_mem_of_lt {β : Type} (l : List β) (i : ℕ) (h : i < l.length) (d : β) :
    l.getD i d ∈ l := by
  rw [List.getD_eq_getElem?_getD, List.getElem?_eq_getElem h]
  exact List.getElem_mem h

/-- The per-entry factor of the recalibration: `exp(log(s + ε) / T)`. -/
noncomputable def soft (T ε s : ℝ) : ℝ := Real.exp (Real.log (s + ε) / T)

theorem recalibrate_eq (T ε : ℝ) (scores : List ℝ) :
    recalibrate T ε scores =
      scores.map (fun s => soft T ε s / (scores.map (soft T ε)).sum) := by
  unfold recalibrate soft
  simp only [List.map_map]
  rfl

theorem softSum_pos (T ε : ℝ) (scores : List ℝ) (hne : scores ≠ []) :
    0 < (scores.map (soft T ε)).sum := by
  apply List.sum_pos
  · intro x hx
    rw [List.mem_map] at hx
    obtain ⟨s, _, rfl⟩ := hx
    exact Real.exp_pos _
  · simpa using hne

theorem recalibrate_getD (T ε : ℝ) (scores : List ℝ) (i : ℕ) (h : i < scores.length) :
    (recalibrate T ε scores).getD i 0 =
      soft T ε (scores.getD i 0) / (scores.map (soft T ε)).sum := by
  rw [recalibrate_eq]
  rw [getD_map_of_lt _ _ _ h 0 0]

/-- C3: with T = 2.0 and ε = 1e-7, the recalibration step computes
`output_i = exp(ln(score_i + ε) / T) / Σ_j exp(ln(score_j + ε) / T)`; and for
every valid probability distribution (non-negative entries summing to 1) the
recalibrated output sums exactly to 1 and is rank-preserving: a strictly
larger input score yields a strictly larger output score, and equal input
scores yield equal output scores. -/
theorem recalibrate_spec (scores : List ℝ)
    (hnn : ∀ s ∈ scores, 0 ≤ s) (hsum : scores.sum = 1) :
    (∀ i, i < scores.length →
      (recalibrate TEMPERATURE EPS scores).getD i 0 =
        Real.exp (Real.log (scores.getD i 0 + EPS) / TEMPERATURE) /
          (scores.map (fun s => Real.exp (Real.log (s + EPS) / TEMPERATURE))).sum) ∧
    (recalibrate TEMPERATURE EPS scores).sum = 1 ∧
    (∀ i j, i < scores.length → j < scores.length →
      scores.getD j 0 < scores.getD i 0 →
      (recalibrate TEMPERATURE EPS scores).getD j 0 <
        (recalibrate TEMPERATURE EPS scores).getD i 0) ∧
    (∀ i j, i < scores.length → j < scores.length →
      scores.getD i 0 = scores.getD j 0 →
      (recalibrate TEMPERATURE EPS scores).getD i 0 =
        (recalibrate TEMPERATURE EPS scores).getD j 0) := by
  have hne : scores ≠ [] := by
    intro hcon
    rw [hcon] at hsum
    simp at hsum
  have hS : 0 < (scores.map (soft TEMPERATURE EPS)).sum := softSum_pos _ _ _ hne
  have hT : (0:ℝ) < TEMPERATURE := by norm_num [TEMPERATURE]
  have hEPS : (0:ℝ) < EPS := by norm_num [EPS]
  refine ⟨?_, ?_, ?_, ?_⟩
  · intro i hi
    rw [recalibrate_getD _ _ _ _ hi]
    rfl
  · rw [recalibrate_eq]
    simp only [div_eq_mul_inv]
    rw [List.sum_map_mul_right]
    exact mul_inv_cancel₀ (ne_of_gt hS)
  · intro i j hi hj hlt
    rw [recalibrate_getD _ _ _ _ hi, recalibrate_getD _ _ _ _ hj]
    apply div_lt_div_of_pos_right _ hS
    unfold soft
    rw [Real.exp_lt_exp]
    apply div_lt_div_of_pos_right _ hT
    apply Real.log_lt_log
    · have := hnn _ (getD_mem_of_lt scores j hj 0)
      linarith
    · linarith
  · intro i j hi hj heq
    rw [recalibrate_getD _ _ _ _ hi, recalibrate_getD _ _ _ _ hj, heq]

/-- Witness for C3: the distribution `[1, 0]` recalibrates to a vector
summing to 1, with its entries ordered like the inputs. -/
theorem recalibrate_spec_witness :
    (recalibrate TEMPERATURE EPS [1, 0]).sum = 1 ∧
    (recalibrate TEMPERATURE EPS [1, 0]).getD 1 0 <
      (recalibrate TEMPERATURE EPS [1, 0]).getD 0 0 := by
  have h := recalibrate_spec [1, 0]
    (by
      intro s hs
      rcases List.mem_cons.mp hs with rfl | hs
      · norm_num
      · rcases List.mem_cons.mp hs with rfl | hs
        · norm_num
        · simp at hs)
    (by norm_num)
  refine ⟨h.2.1, h.2.2.1 0 1 (by norm_num) (by norm_num) ?_⟩
  show List.getD [1, 0] 1 0 < List.getD [1, 0] 0 0
  norm_num

/-- C10: for every input score vector with non-negative entries the
recalibration is total — it assigns every class a well-defined score (one
output per input entry) — and every recalibrated score is strictly
positive, because the 1e-7 epsilon makes every logarithm argument strictly
positive even when a raw score is exactly 0; hence the top-score and
top-minus-second comparisons of the cascade are always performed on
well-defined values. -/
theorem recalibrate_pos_spec (scores : List ℝ) (hnn : ∀ s ∈ scores, 0 ≤ s) :
    (recalibrate TEMPERATURE EPS scores).length = scores.length ∧
    ∀ i, i < scores.length → 0 < (recalibrate TEMPERATURE EPS scores).getD i 0 := by
  constructor
  · rw [recalibrate_eq, List.length_map]
  · intro i hi
    have hne : scores ≠ [] :=
      List.ne_nil_of_length_pos (lt_of_le_of_lt (Nat.zero_le i) hi)
    rw [recalibrate_getD _ _ _ _ hi]
    exact div_pos (Real.exp_pos _) (softSum_pos _ _ _ hne)

/-- Witness for C10: a vector with a raw zero score still gets a strictly
positive recalibrated score in position 0. -/
theorem recalibrate_pos_spec_witness :
    0 < (recalibrate TEMPERATURE EPS [0, 1]).getD 0 0 :=
  (recalibrate_pos_spec [0, 1]
    (by
      intro s hs
      rcases List.mem_cons.mp hs with rfl | hs
      · norm_num
      · rcases List.mem_cons.mp hs with rfl | hs
        · norm_num
        · simp at hs)).2 0 (by norm_num)

end LeafDoctor
